import Mathlib

/-!
Verification development for the `pkgbld` package-release orchestrator
(`src/pkgbld/release.py`).

The single entry point `release(repo_name, pkg_name, version, also37, dryrun)`
is embedded as a pure function from its (Python-typed) arguments and an
environment to a trace of observable side effects together with an optional
fatal error.  Events model console output, filesystem operations and external
command invocations; external commands may fail, which is modelled by an
oracle in the environment.  An exception truncates the trace at the point it
is raised, exactly as Python exception propagation aborts the rest of the
procedure.
-/

namespace Pkgbld

/-- Source constant `BASE_PYTHON_VERSIONS` (release.py line 15). -/
def BASE_PYTHON_VERSIONS : List String := ["3.6"]

/-- Source constant `OS_PLATFORMS` (release.py line 16). -/
def OS_PLATFORMS : List String := ["osx-64", "linux-64", "win-32", "win-64"]

/-- Source constant `GITHUB_URL` (release.py line 18). -/
def GITHUB_URL : String := "https://github.com/PSLmodels"

/-- Source constant `ANACONDA_USER` (release.py line 19). -/
def ANACONDA_USER : String := "pslmodels"

/-- Source constant `ANACONDA_CHANNEL` (release.py line 20). -/
def ANACONDA_CHANNEL : String := ANACONDA_USER

/-- Source constant `BUILDS_DIR` (release.py line 30). -/
def BUILDS_DIR : String := "pkgbld_output"

/-- A Python value, as far as the argument checks of `release` can
distinguish them: strings, booleans, and representative non-string
non-boolean values (integers and None). -/
inductive PyVal where
  | str (s : String)
  | bool (b : Bool)
  | int (n : Int)
  | pynone
deriving DecidableEq

/-- Python `isinstance(v, str)`. -/
def PyVal.isStr : PyVal → Bool
  | .str _ => true
  | _ => false

/-- Python `isinstance(v, bool)` (Python booleans are exactly `True`/`False`;
integers are not booleans). -/
def PyVal.isBool : PyVal → Bool
  | .bool _ => true
  | _ => false

/-- One observable side effect of a `release` run. -/
inductive Event where
  | print (s : String)
  | rmtree (path : String)
  | mkdir (path : String)
  | chdir (path : String)
  | osCall (cmd : String)
  | fileRevision (filename : String) (pat : String) (repl : String)
deriving DecidableEq

/-- Environment of a `release` run: the facts about the machine that the
source code consults.  `osCallOk` is the oracle saying whether a given
external command exits successfully; `localPlatform` models
`u.conda_platform_name()` (modelled from the spec: the conda platform name of
the local machine, from `pkgbld/utils.py` which is not part of the sources);
`homeDir` models `os.path.expanduser` on the home directory; the two time
fields model the two `time.asctime()` calls. -/
structure Env where
  tokenFileExists : Bool
  workingDirExists : Bool
  localPlatform : String
  osCallOk : String → Bool
  homeDir : String
  startTime : String
  finishTime : String

/-- POSIX `os.path.join` for the relative path components used by release.py. -/
def pathJoin (a b : String) : String := a ++ "/" ++ b

/-- Source constant `ANACONDA_TOKEN_FILE` (release.py lines 22-25):
`~/.pslmodels_anaconda_token`. -/
def ANACONDA_TOKEN_FILE (env : Env) : String :=
  pathJoin env.homeDir ("." ++ ANACONDA_USER ++ "_anaconda_token")

/-- Source constant `WORKING_DIR` (release.py lines 26-29). -/
def WORKING_DIR (env : Env) : String :=
  pathJoin env.homeDir "temporary_pkgbld_working_dir"

/-- Result of a (partial) run: the events that happened, in order, and the
error that aborted the run, if any. -/
abbrev RStep := List Event × Option String

/-- Sequencing with Python exception semantics: if the first part raised, the
second part never runs and contributes no events. -/
def seqR (a b : RStep) : RStep :=
  match a with
  | (t, some m) => (t, some m)
  | (t, none) => (t ++ b.1, b.2)

/-- Sequence a list of steps, stopping at the first failure. -/
def seqList : List RStep → RStep
  | [] => ([], none)
  | r :: rs => seqR r (seqList rs)

/-- Modelled from the spec: `u.os_call(cmd)` (from `pkgbld/utils.py`, not
among the sources) runs an external command and raises on failure; "any
external command failure propagates as a fatal error".  The invocation itself
is always recorded; the oracle decides success. -/
def osCallStep (env : Env) (cmd : String) : RStep :=
  ([Event.osCall cmd],
   if env.osCallOk cmd then none else some ("command failed: " ++ cmd))

/-- The character `.` (code point 46). -/
def dotChar : Char := Char.ofNat 46

/-- The newline character (code point 10). -/
def nlChar : Char := Char.ofNat 10

/-- The single-quote character (code point 39), used by Python list repr. -/
def sqChar : Char := Char.ofNat 39

/-- Split a character list on `.` (Python `str.split` on a one-character
separator): always returns one more part than there are separators. -/
def splitDots : List Char → List (List Char)
  | [] => [[]]
  | c :: cs =>
    if c = dotChar then [] :: splitDots cs
    else
      match splitDots cs with
      | [] => [[c]]
      | p :: ps => (c :: p) :: ps

/-- A non-empty run of ASCII digits (what `[0-9]+` accepts). -/
def digitRun (cs : List Char) : Bool :=
  !cs.isEmpty && cs.all Char.isDigit

/-- Character lists of the exact shape `[0-9]+ . [0-9]+ . [0-9]+` and nothing
else.  Because `.` is not a digit, this is equivalent to matching the regular
expression against the whole list. -/
def xyzSplit (cs : List Char) : Bool :=
  match splitDots cs with
  | [a, b, c] => digitRun a && digitRun b && digitRun c
  | _ => false

/-- Truth value of Python
`re.match(r'\x5e[0-9]+\.[0-9]+\.[0-9]+$', s) is not None`
(release.py lines 84-85).  In Python, `$` matches at the end of the string
or just before a single newline at the end of the string, so the code also
accepts a well-formed version followed by one trailing newline. -/
def reMatchXYZ (s : String) : Bool :=
  xyzSplit s.data ||
    (match s.data.getLast? with
     | some c => c = nlChar && xyzSplit s.data.dropLast
     | none => false)

/-- Modelled from the spec: "version: string matching `X.Y.Z` (non-negative
integers)" -- "three dot-separated non-negative integers and nothing else".
This is the pattern the spec describes, to be compared with `reMatchXYZ`,
the pattern the code actually checks. -/
def specVersionPattern (s : String) : Bool := xyzSplit s.data

/-- Python version set computed by release.py lines 94-98. -/
def pythonVersions (a37 : Bool) : List String :=
  if a37 then BASE_PYTHON_VERSIONS ++ ["3.7"] else BASE_PYTHON_VERSIONS

/-- Everything before the first `.`, at character level (Python
`s.split('.')[0]`). -/
def takeUntilDot : List Char → List Char
  | [] => []
  | c :: cs => if c = dotChar then [] else c :: takeUntilDot cs

/-- Drop through the first `.`, at character level. -/
def dropPastDot : List Char → List Char
  | [] => []
  | c :: cs => if c = dotChar then cs else dropPastDot cs

/-- The compacted interpreter token of release.py lines 166-167:
`pyver.split('.')[0] + pyver.split('.')[1]`.  (Python would raise an
`IndexError` on an input without a `.`; this embedding returns the first part
alone there, a case never reached because release.py only passes "3.6" and
"3.7".) -/
def pystr (pyver : String) : String :=
  String.mk (takeUntilDot pyver.data ++ takeUntilDot (dropPastDot pyver.data))

/-- Built artifact filename of release.py line 168:
`'\x7b\x7d-\x7b\x7d-py\x7b\x7d_0.tar.bz2'.format(pkg_name, version, pystr)`. -/
def pkgfileName (pkg ver pyver : String) : String :=
  pkg ++ "-" ++ ver ++ "-py" ++ pystr pyver ++ "_0.tar.bz2"

/-- Clone command of release.py lines 125-127. -/
def cloneCmd (ver repo : String) : String :=
  "git clone --branch " ++ ver ++ " --depth 1 " ++ GITHUB_URL ++ "/" ++ repo ++ "/"

/-- Build command of release.py lines 158-161. -/
def buildCmd (pyver : String) : String :=
  "conda build --python " ++ pyver ++ " --old-build-string --channel " ++
    ANACONDA_CHANNEL ++ " --override-channels --no-anaconda-upload --output-folder " ++
    BUILDS_DIR ++ " conda.recipe"

/-- Convert command of release.py lines 173-175. -/
def convertCmd (platform pkgpath : String) : String :=
  "conda convert -p " ++ platform ++ " -o " ++ BUILDS_DIR ++ " " ++ pkgpath

/-- Upload command of release.py lines 182-184. -/
def uploadCmd (env : Env) (pkgpath : String) : String :=
  "anaconda -t " ++ ANACONDA_TOKEN_FILE env ++ " upload -u " ++ ANACONDA_USER ++
    " --force " ++ pkgpath

/-- Purge command of release.py line 190. -/
def purgeCmd : String := "conda build purge"

/-- Artifact path for the local platform (release.py line 169). -/
def localPkgPath (env : Env) (pkg ver pyver : String) : String :=
  pathJoin (pathJoin BUILDS_DIR env.localPlatform) (pkgfileName pkg ver pyver)

/-- Artifact path for a given platform (release.py line 181). -/
def platPkgPath (platform pkg ver pyver : String) : String :=
  pathJoin (pathJoin BUILDS_DIR platform) (pkgfileName pkg ver pyver)

/-- Python double-quoted interpolation `"\x7b\x7d"` used in the replacement
strings of release.py lines 143 and 149. -/
def dq (s : String) : String := "\"" ++ s ++ "\""

/-- Python `repr` of a string: single quotes around it (adequate for the
version strings "3.6" and "3.7" that release.py prints). -/
def quoteItem (s : String) : String := sqChar.toString ++ s ++ sqChar.toString

/-- Python `str` of a list of strings, as `print` renders
`python_versions` on release.py line 105. -/
def pyListRepr (xs : List String) : String :=
  "[" ++ String.intercalate ", " (xs.map quoteItem) ++ "]"

/-- The eight plan lines printed by release.py lines 101-108. -/
def planTrace (env : Env) (repo pkg ver : String) (pyvers : List String) : List Event :=
  [Event.print ": Package-Builder will build model packages for:",
   Event.print (":   repository_name = " ++ repo),
   Event.print (":   package_name = " ++ pkg),
   Event.print (":   model_version = " ++ ver),
   Event.print (":   python_versions = " ++ pyListRepr pyvers),
   Event.print ": Package-Builder will upload model packages to:",
   Event.print (":   Anaconda channel = " ++ ANACONDA_CHANNEL),
   Event.print (":   using token in file = " ++ ANACONDA_TOKEN_FILE env)]

/-- Workspace reset of release.py lines 117-120: remove the working directory
if it exists, recreate it, enter it. -/
def workspaceReset (env : Env) : List Event :=
  (if env.workingDirExists then [Event.rmtree (WORKING_DIR env)] else []) ++
    [Event.mkdir (WORKING_DIR env), Event.chdir (WORKING_DIR env)]

/-- Version stamping of release.py lines 131-150: the "setting version"
progress line followed by the three `u.file_revision` invocations
(`u.file_revision` itself, from `pkgbld/utils.py`, is modelled from the spec
as an in-place pattern substitution primitive; the invocation and its
arguments are recorded as an event). -/
def stampTrace (pkg ver : String) : List Event :=
  [Event.print ": Package-Builder is setting version",
   Event.fileRevision (pathJoin "conda.recipe" "meta.yaml")
     "version: .*" ("version: " ++ ver),
   Event.fileRevision "setup.py"
     "version = .*" ("version = " ++ dq ver),
   Event.fileRevision (pathJoin pkg "__init__.py")
     "__version__ = .*" ("__version__ = " ++ dq ver)]

/-- Convert loop of release.py lines 170-176: for every platform in
`OS_PLATFORMS`, skipping the local platform (the `continue`), invoke
`conda convert` on the locally built artifact. -/
def convertSteps (env : Env) (pkg ver pyver : String) : RStep :=
  seqList ((OS_PLATFORMS.filter (fun p => p != env.localPlatform)).map
    (fun p => osCallStep env (convertCmd p (localPkgPath env pkg ver pyver))))

/-- Upload loop of release.py lines 180-185: for every platform in
`OS_PLATFORMS` (including the local one), invoke `anaconda upload` on that
platform's artifact. -/
def uploadSteps (env : Env) (pkg ver pyver : String) : RStep :=
  seqList (OS_PLATFORMS.map
    (fun p => osCallStep env (uploadCmd env (platPkgPath p pkg ver pyver))))

/-- One iteration of the per-Python-version loop of release.py
lines 154-185: build, convert to the other platforms, upload everywhere. -/
def buildOne (env : Env) (pkg ver pyver : String) : RStep :=
  seqR ([Event.print (": Package-Builder is building package for Python " ++ pyver)], none)
  (seqR (osCallStep env (buildCmd pyver))
  (seqR ([Event.print (": Package-Builder is converting package for Python " ++ pyver)], none)
  (seqR (convertSteps env pkg ver pyver)
  (seqR ([Event.print (": Package-Builder is uploading packages for Python " ++ pyver)], none)
  (uploadSteps env pkg ver pyver)))))

/-- The whole per-Python-version loop of release.py lines 154-185. -/
def pyLoop (env : Env) (pkg ver : String) (pyvers : List String) : RStep :=
  seqList (pyvers.map (buildOne env pkg ver))

/-- The side-effecting part of `release` past the dry-run early return
(release.py lines 114-197): start banner, workspace reset, clone, version
stamping, the build/convert/upload loop, cleanup. -/
def releaseRun (env : Env) (repo pkg ver : String) (pyvers : List String) : RStep :=
  seqR (planTrace env repo pkg ver pyvers ++
        [Event.print (": Package-Builder is starting at " ++ env.startTime)] ++
        workspaceReset env ++
        [Event.print (": Package-Builder is cloning repository code for " ++ ver)], none)
  (seqR (osCallStep env (cloneCmd ver repo))
  (seqR ([Event.chdir repo], none)
  (seqR (stampTrace pkg ver, none)
  (seqR (pyLoop env pkg ver pyvers)
  (seqR ([Event.print ": Package-Builder is cleaning-up"], none)
  (seqR (osCallStep env purgeCmd)
  ([Event.chdir env.homeDir, Event.rmtree (WORKING_DIR env),
    Event.print (": Package-Builder is finishing at " ++ env.finishTime)], none)))))))

/-- Body of `release` after all parameter and token-file checks passed
(release.py lines 94-197): plan report, dry-run early return, then the
side-effecting run. -/
def releaseChecked (env : Env) (repo pkg ver : String) (a37 dry : Bool) : RStep :=
  if dry then
    (planTrace env repo pkg ver (pythonVersions a37) ++
      [Event.print ": Package-Builder is quitting"], none)
  else
    releaseRun env repo pkg ver (pythonVersions a37)

/-- Entry point `release(repo_name, pkg_name, version, also37=True,
dryrun=False)` of release.py line 33.  The five `isinstance` checks, the
version-pattern check and the token-file check (lines 74-92) run in order
before any side effect; the first violated one raises `ValueError` with its
message and an empty event trace. -/
def release (env : Env) (repo_name pkg_name version : PyVal)
    (also37 : PyVal := PyVal.bool true) (dryrun : PyVal := PyVal.bool false) : RStep :=
  match repo_name with
  | PyVal.str repo =>
    match pkg_name with
    | PyVal.str pkg =>
      match version with
      | PyVal.str ver =>
        match also37 with
        | PyVal.bool a37 =>
          match dryrun with
          | PyVal.bool dry =>
            if reMatchXYZ ver then
              if env.tokenFileExists then
                releaseChecked env repo pkg ver a37 dry
              else
                ([], some ("Anaconda token file " ++ ANACONDA_TOKEN_FILE env ++
                           " does not exist"))
            else
              ([], some ("version=" ++ ver ++
                         " does not have X.Y.Z semantic-versioning pattern"))
          | _ => ([], some "dryrun is not a boolean object")
        | _ => ([], some "also37 is not a boolean object")
      | _ => ([], some "version is not a string object")
    | _ => ([], some "pkg_name is not a string object")
  | _ => ([], some "repo_name is not a string object")

/-- The `u.file_revision` invocations recorded in a trace, with their
(filename, pattern, replacement) arguments. -/
def revisionsOf (t : List Event) : List (String × String × String) :=
  t.filterMap (fun e =>
    match e with
    | Event.fileRevision f p r => some (f, p, r)
    | _ => none)

/-- Whether an event is a console print (as opposed to a filesystem
mutation, external command invocation, or file substitution). -/
def isPrint : Event → Bool
  | Event.print _ => true
  | _ => false

/-- Character of a string at a byte-free character index, for telling
distinct command strings apart. -/
def charAt (n : Nat) (s : String) : Char := s.data.getD n (Char.ofNat 0)

/-- All events of one successful loop iteration (what `buildOne` produces
when every external command succeeds). -/
def buildOneTrace (env : Env) (pkg ver pyver : String) : List Event :=
  [Event.print (": Package-Builder is building package for Python " ++ pyver),
   Event.osCall (buildCmd pyver),
   Event.print (": Package-Builder is converting package for Python " ++ pyver)] ++
  (OS_PLATFORMS.filter (fun p => p != env.localPlatform)).map
    (fun p => Event.osCall (convertCmd p (localPkgPath env pkg ver pyver))) ++
  [Event.print (": Package-Builder is uploading packages for Python " ++ pyver)] ++
  OS_PLATFORMS.map (fun p => Event.osCall (uploadCmd env (platPkgPath p pkg ver pyver)))

/-- All events of a fully successful non-dry-run `release`. -/
def successTrace (env : Env) (repo pkg ver : String) (a37 : Bool) : List Event :=
  planTrace env repo pkg ver (pythonVersions a37) ++
  [Event.print (": Package-Builder is starting at " ++ env.startTime)] ++
  workspaceReset env ++
  [Event.print (": Package-Builder is cloning repository code for " ++ ver),
   Event.osCall (cloneCmd ver repo), Event.chdir repo] ++
  stampTrace pkg ver ++
  ((pythonVersions a37).map (buildOneTrace env pkg ver)).flatten ++
  [Event.print ": Package-Builder is cleaning-up", Event.osCall purgeCmd,
   Event.chdir env.homeDir, Event.rmtree (WORKING_DIR env),
   Event.print (": Package-Builder is finishing at " ++ env.finishTime)]

/-- Sequencing after a failure keeps the failure. -/
theorem seqR_fail {t : List Event} {m : String} (b : RStep) :
    seqR (t, some m) b = (t, some m) := rfl

/-- Sequencing after a success appends the second step. -/
theorem seqR_ok {t : List Event} (b : RStep) :
    seqR (t, none) b = (t ++ b.1, b.2) := rfl

/-- A sequenced step succeeds iff both halves do. -/
theorem seqR_snd_none {a b : RStep} :
    (seqR a b).2 = none ↔ a.2 = none ∧ b.2 = none := by
  obtain ⟨t, e⟩ := a
  cases e <;> simp [seqR]

/-- Events of a sequenced step whose first half succeeded. -/
theorem seqR_fst_of_none {a b : RStep} (h : a.2 = none) :
    (seqR a b).1 = a.1 ++ b.1 := by
  obtain ⟨t, e⟩ := a
  cases e <;> simp_all [seqR]

/-- Sequencing behind a failed step is the failed step itself. -/
theorem seqR_of_fail {a : RStep} {m : String} (h : a.2 = some m) (b : RStep) :
    seqR a b = a := by
  obtain ⟨t, e⟩ := a
  cases e with
  | none => cases h
  | some m2 => rfl

/-- An event of a sequenced step came from one of its halves. -/
theorem mem_of_seqR {e : Event} {a b : RStep} (h : e ∈ (seqR a b).1) :
    e ∈ a.1 ∨ e ∈ b.1 := by
  obtain ⟨t, er⟩ := a
  cases er with
  | none => exact List.mem_append.mp h
  | some m => exact Or.inl h

/-- An event of the first half of a sequenced step is an event of the whole. -/
theorem mem_seqR_of_left {e : Event} {a b : RStep} (h : e ∈ a.1) :
    e ∈ (seqR a b).1 := by
  obtain ⟨t, er⟩ := a
  cases er with
  | none => exact List.mem_append_left _ h
  | some m => exact h

/-- If the first half of a sequenced step succeeded, an event of the second
half is an event of the whole. -/
theorem mem_seqR_of_right {e : Event} {a b : RStep} (h2 : a.2 = none)
    (h : e ∈ b.1) : e ∈ (seqR a b).1 := by
  rw [seqR_fst_of_none h2]
  exact List.mem_append_right a.1 h

/-- An event of a sequenced list of steps came from one of them. -/
theorem mem_of_seqList {e : Event} {l : List RStep} (h : e ∈ (seqList l).1) :
    ∃ r ∈ l, e ∈ r.1 := by
  induction l with
  | nil => exact absurd h (List.not_mem_nil e)
  | cons a t ih =>
    rcases mem_of_seqR (a := a) (b := seqList t) h with h1 | h2
    · exact ⟨a, List.mem_cons_self a t, h1⟩
    · obtain ⟨r, hr, hmem⟩ := ih h2
      exact ⟨r, List.mem_cons_of_mem a hr, hmem⟩

/-- Strings with equal character lists are equal. -/
theorem string_data_inj {a b : String} (h : a.data = b.data) : a = b := by
  cases a
  cases b
  exact congrArg String.mk h

/-- Right cancellation for string append. -/
theorem string_append_right_cancel {a b s : String} (h : a ++ s = b ++ s) : a = b := by
  have h2 : a.data ++ s.data = b.data ++ s.data := by
    have := congrArg String.data h
    simpa [String.data_append] using this
  exact string_data_inj (List.append_cancel_right h2)

/-- Left cancellation for string append. -/
theorem string_append_left_cancel {a x y : String} (h : a ++ x = a ++ y) : x = y := by
  have h2 : a.data ++ x.data = a.data ++ y.data := by
    have := congrArg String.data h
    simpa [String.data_append] using this
  exact string_data_inj (List.append_cancel_left h2)

/-- Strings that differ at some character index are different. -/
theorem charAt_ne {n : Nat} {a b : String} (h : charAt n a ≠ charAt n b) : a ≠ b :=
  fun he => h (he ▸ rfl)

/-- Character 6 of every build command is the `b` of `conda build`. -/
theorem charAt6_buildCmd (pyver : String) : charAt 6 (buildCmd pyver) = Char.ofNat 98 := rfl

/-- Character 6 of every convert command is the `c` of `conda convert`. -/
theorem charAt6_convertCmd (p path : String) :
    charAt 6 (convertCmd p path) = Char.ofNat 99 := rfl

/-- Character 0 of every upload command is the `a` of `anaconda`. -/
theorem charAt0_uploadCmd (env : Env) (path : String) :
    charAt 0 (uploadCmd env path) = Char.ofNat 97 := rfl

/-- Character 0 of every convert command is a `c`. -/
theorem charAt0_convertCmd (p path : String) :
    charAt 0 (convertCmd p path) = Char.ofNat 99 := rfl

/-- Character 0 of every build command is a `c`. -/
theorem charAt0_buildCmd (pyver : String) : charAt 0 (buildCmd pyver) = Char.ofNat 99 := rfl

/-- Character 0 of every clone command is the `g` of `git`. -/
theorem charAt0_cloneCmd (ver repo : String) :
    charAt 0 (cloneCmd ver repo) = Char.ofNat 103 := rfl

/-- Character 0 of the purge command is a `c`. -/
theorem charAt0_purgeCmd : charAt 0 purgeCmd = Char.ofNat 99 := rfl

/-- Character 6 of the purge command is the `b` of `conda build`. -/
theorem charAt6_purgeCmd : charAt 6 purgeCmd = Char.ofNat 98 := rfl

/-- Character 12 of the purge command is the `p` of `purge`. -/
theorem charAt12_purgeCmd : charAt 12 purgeCmd = Char.ofNat 112 := rfl

/-- Character 12 of every build command is the first dash of
`--old-build-string`'s preceding `--python` flag region. -/
theorem charAt12_buildCmd (pyver : String) :
    charAt 12 (buildCmd pyver) = Char.ofNat 45 := rfl

/-- A build command is never a convert command. -/
theorem buildCmd_ne_convertCmd (pyver p path : String) :
    buildCmd pyver ≠ convertCmd p path :=
  charAt_ne (n := 6) (by rw [charAt6_buildCmd, charAt6_convertCmd]; decide)

/-- An upload command is never a convert command. -/
theorem uploadCmd_ne_convertCmd (env : Env) (x p path : String) :
    uploadCmd env x ≠ convertCmd p path :=
  charAt_ne (n := 0) (by rw [charAt0_uploadCmd, charAt0_convertCmd]; decide)

/-- An upload command is never a build command. -/
theorem uploadCmd_ne_buildCmd (env : Env) (x pyver : String) :
    uploadCmd env x ≠ buildCmd pyver :=
  charAt_ne (n := 0) (by rw [charAt0_uploadCmd, charAt0_buildCmd]; decide)

/-- A clone command is never the purge command. -/
theorem cloneCmd_ne_purgeCmd (ver repo : String) : cloneCmd ver repo ≠ purgeCmd :=
  charAt_ne (n := 0) (by rw [charAt0_cloneCmd]; decide)

/-- The purge command is never a build command. -/
theorem purgeCmd_ne_buildCmd (pyver : String) : purgeCmd ≠ buildCmd pyver :=
  charAt_ne (n := 12) (by rw [charAt12_purgeCmd, charAt12_buildCmd]; decide)

/-- The purge command is never a convert command. -/
theorem purgeCmd_ne_convertCmd (p path : String) : purgeCmd ≠ convertCmd p path :=
  charAt_ne (n := 6) (by rw [charAt6_purgeCmd, charAt6_convertCmd]; decide)

/-- The purge command is never an upload command. -/
theorem purgeCmd_ne_uploadCmd (env : Env) (path : String) :
    purgeCmd ≠ uploadCmd env path :=
  charAt_ne (n := 0) (by rw [charAt0_purgeCmd, charAt0_uploadCmd]; decide)

/-- The platform argument determines the convert command. -/
theorem convertCmd_platform_inj {p q path : String}
    (h : convertCmd p path = convertCmd q path) : p = q := by
  unfold convertCmd at h
  have h1 := string_append_right_cancel h
  have h2 := string_append_right_cancel h1
  have h3 := string_append_right_cancel h2
  have h4 := string_append_right_cancel h3
  exact string_append_left_cancel h4

/-- The artifact-path argument determines the upload command. -/
theorem uploadCmd_path_inj {env : Env} {x y : String}
    (h : uploadCmd env x = uploadCmd env y) : x = y := by
  unfold uploadCmd at h
  exact string_append_left_cancel h

/-- The platform determines that platform's artifact path. -/
theorem platPkgPath_platform_inj {p q pkg ver pyver : String}
    (h : platPkgPath p pkg ver pyver = platPkgPath q pkg ver pyver) : p = q := by
  unfold platPkgPath pathJoin at h
  have h1 := string_append_right_cancel h
  have h2 := string_append_right_cancel h1
  exact string_append_left_cancel h2

/-- A sequence of command invocations, all of which succeed, contributes one
`osCall` event per command and no error. -/
theorem seqList_map_osCall_ok {env : Env} (g : String → String) {l : List String}
    (h : ∀ c, env.osCallOk c = true) :
    seqList (l.map (fun x => osCallStep env (g x))) =
      (l.map (fun x => Event.osCall (g x)), none) := by
  induction l with
  | nil => rfl
  | cons a t ih =>
    show seqR (osCallStep env (g a)) (seqList (t.map fun x => osCallStep env (g x))) = _
    rw [ih]
    simp [osCallStep, h, seqR]

/-- Convert loop under an all-successful oracle. -/
theorem convertSteps_ok {env : Env} (pkg ver pyver : String)
    (h : ∀ c, env.osCallOk c = true) :
    convertSteps env pkg ver pyver =
      ((OS_PLATFORMS.filter (fun p => p != env.localPlatform)).map
        (fun p => Event.osCall (convertCmd p (localPkgPath env pkg ver pyver))), none) :=
  seqList_map_osCall_ok _ h

/-- Upload loop under an all-successful oracle. -/
theorem uploadSteps_ok {env : Env} (pkg ver pyver : String)
    (h : ∀ c, env.osCallOk c = true) :
    uploadSteps env pkg ver pyver =
      (OS_PLATFORMS.map
        (fun p => Event.osCall (uploadCmd env (platPkgPath p pkg ver pyver))), none) :=
  seqList_map_osCall_ok _ h

/-- One loop iteration under an all-successful oracle. -/
theorem buildOne_ok {env : Env} (pkg ver pyver : String)
    (h : ∀ c, env.osCallOk c = true) :
    buildOne env pkg ver pyver = (buildOneTrace env pkg ver pyver, none) := by
  unfold buildOne buildOneTrace
  rw [convertSteps_ok pkg ver pyver h, uploadSteps_ok pkg ver pyver h]
  simp [osCallStep, h, seqR]

/-- The whole loop under an all-successful oracle. -/
theorem pyLoop_ok {env : Env} (pkg ver : String) (pyvers : List String)
    (h : ∀ c, env.osCallOk c = true) :
    pyLoop env pkg ver pyvers =
      ((pyvers.map (buildOneTrace env pkg ver)).flatten, none) := by
  induction pyvers with
  | nil => rfl
  | cons a t ih =>
    unfold pyLoop at ih ⊢
    simp [seqList, buildOne_ok _ _ _ h, ih, seqR]

/-- A checked non-dry-run release under an all-successful oracle produces
exactly `successTrace` and no error. -/
theorem releaseChecked_ok {env : Env} (repo pkg ver : String) (a37 : Bool)
    (h : ∀ c, env.osCallOk c = true) :
    releaseChecked env repo pkg ver a37 false =
      (successTrace env repo pkg ver a37, none) := by
  simp [releaseChecked, releaseRun, successTrace, osCallStep, h, seqR,
    pyLoop_ok pkg ver (pythonVersions a37) h, List.append_assoc]

/-- A release whose parameters pass every check, run non-dry with an
all-successful oracle, produces exactly `successTrace` and no error. -/
theorem release_ok {env : Env} (repo pkg ver : String) (a37 : Bool)
    (hm : reMatchXYZ ver = true) (ht : env.tokenFileExists = true)
    (h : ∀ c, env.osCallOk c = true) :
    release env (PyVal.str repo) (PyVal.str pkg) (PyVal.str ver)
        (PyVal.bool a37) (PyVal.bool false) =
      (successTrace env repo pkg ver a37, none) := by
  simp [release, hm, ht, releaseChecked_ok repo pkg ver a37 h]

/-- A release whose clone command fails stops at the clone invocation. -/
theorem release_cloneFail {env : Env} (repo pkg ver : String) (a37 : Bool)
    (hm : reMatchXYZ ver = true) (ht : env.tokenFileExists = true)
    (hc : env.osCallOk (cloneCmd ver repo) = false) :
    release env (PyVal.str repo) (PyVal.str pkg) (PyVal.str ver)
        (PyVal.bool a37) (PyVal.bool false) =
      (planTrace env repo pkg ver (pythonVersions a37) ++
        [Event.print (": Package-Builder is starting at " ++ env.startTime)] ++
        workspaceReset env ++
        [Event.print (": Package-Builder is cloning repository code for " ++ ver),
         Event.osCall (cloneCmd ver repo)],
       some ("command failed: " ++ cloneCmd ver repo)) := by
  simp [release, hm, ht, releaseChecked, releaseRun, osCallStep, hc, seqR,
    List.append_assoc]

/-- Appending traces concatenates their recorded file revisions. -/
theorem revisionsOf_append (s t : List Event) :
    revisionsOf (s ++ t) = revisionsOf s ++ revisionsOf t := by
  simp [revisionsOf, List.filterMap_append]

/-- Sequencing steps without file revisions yields no file revisions. -/
theorem revisionsOf_seqR {a b : RStep} (ha : revisionsOf a.1 = [])
    (hb : revisionsOf b.1 = []) : revisionsOf (seqR a b).1 = [] := by
  obtain ⟨t, e⟩ := a
  cases e <;> simp_all [seqR, revisionsOf_append]

/-- Sequencing a list of steps without file revisions yields none. -/
theorem revisionsOf_seqList {l : List RStep} (h : ∀ r ∈ l, revisionsOf r.1 = []) :
    revisionsOf (seqList l).1 = [] := by
  induction l with
  | nil => rfl
  | cons a t ih =>
    apply revisionsOf_seqR (h a (by simp))
    exact ih (fun r hr => h r (by simp [hr]))

/-- A command invocation records no file revision. -/
theorem revisionsOf_osCallStep (env : Env) (c : String) :
    revisionsOf (osCallStep env c).1 = [] := rfl

/-- A loop iteration records no file revision, whatever the oracle says. -/
theorem revisionsOf_buildOne (env : Env) (pkg ver pyver : String) :
    revisionsOf (buildOne env pkg ver pyver).1 = [] := by
  unfold buildOne convertSteps uploadSteps
  apply revisionsOf_seqR (by rfl)
  apply revisionsOf_seqR (revisionsOf_osCallStep env _)
  apply revisionsOf_seqR (by rfl)
  apply revisionsOf_seqR
  · apply revisionsOf_seqList
    intro r hr
    simp only [List.mem_map] at hr
    obtain ⟨p, _, rfl⟩ := hr
    rfl
  apply revisionsOf_seqR (by rfl)
  apply revisionsOf_seqList
  intro r hr
  simp only [List.mem_map] at hr
  obtain ⟨p, _, rfl⟩ := hr
  rfl

/-- The whole loop records no file revision, whatever the oracle says. -/
theorem revisionsOf_pyLoop (env : Env) (pkg ver : String) (pyvers : List String) :
    revisionsOf (pyLoop env pkg ver pyvers).1 = [] := by
  unfold pyLoop
  apply revisionsOf_seqList
  intro r hr
  simp only [List.mem_map] at hr
  obtain ⟨p, _, rfl⟩ := hr
  exact revisionsOf_buildOne env pkg ver p

/-- The purge command is never invoked inside one loop iteration, whatever
the oracle says. -/
theorem purge_not_in_buildOne (env : Env) (pkg ver pyver : String) :
    Event.osCall purgeCmd ∉ (buildOne env pkg ver pyver).1 := by
  intro hmem
  unfold buildOne at hmem
  rcases mem_of_seqR hmem with h1 | hmem
  · simp at h1
  rcases mem_of_seqR hmem with h2 | hmem
  · simp [osCallStep] at h2
    exact purgeCmd_ne_buildCmd pyver h2
  rcases mem_of_seqR hmem with h3 | hmem
  · simp at h3
  rcases mem_of_seqR hmem with h4 | hmem
  · unfold convertSteps at h4
    obtain ⟨r, hr, hmem4⟩ := mem_of_seqList h4
    simp only [List.mem_map] at hr
    obtain ⟨p, hp, rfl⟩ := hr
    simp [osCallStep] at hmem4
    exact purgeCmd_ne_convertCmd p _ hmem4
  rcases mem_of_seqR hmem with h5 | hmem
  · simp at h5
  · unfold uploadSteps at hmem
    obtain ⟨r, hr, hmem6⟩ := mem_of_seqList hmem
    simp only [List.mem_map] at hr
    obtain ⟨p, hp, rfl⟩ := hr
    simp [osCallStep] at hmem6
    exact purgeCmd_ne_uploadCmd env _ hmem6

/-- The purge command is never invoked inside the loop, whatever the oracle
says. -/
theorem purge_not_in_pyLoop (env : Env) (pkg ver : String) (pyvers : List String) :
    Event.osCall purgeCmd ∉ (pyLoop env pkg ver pyvers).1 := by
  intro hmem
  unfold pyLoop at hmem
  obtain ⟨r, hr, hmem2⟩ := mem_of_seqList hmem
  simp only [List.mem_map] at hr
  obtain ⟨p, hp, rfl⟩ := hr
  exact purge_not_in_buildOne env pkg ver p hmem2

/-- One loop iteration removes no directory, whatever the oracle says. -/
theorem rmtree_not_in_buildOne (env : Env) (pkg ver pyver q : String) :
    Event.rmtree q ∉ (buildOne env pkg ver pyver).1 := by
  intro hmem
  unfold buildOne at hmem
  rcases mem_of_seqR hmem with h1 | hmem
  · simp at h1
  rcases mem_of_seqR hmem with h2 | hmem
  · simp [osCallStep] at h2
  rcases mem_of_seqR hmem with h3 | hmem
  · simp at h3
  rcases mem_of_seqR hmem with h4 | hmem
  · unfold convertSteps at h4
    obtain ⟨r, hr, hmem4⟩ := mem_of_seqList h4
    simp only [List.mem_map] at hr
    obtain ⟨p, hp, rfl⟩ := hr
    simp [osCallStep] at hmem4
  rcases mem_of_seqR hmem with h5 | hmem
  · simp at h5
  · unfold uploadSteps at hmem
    obtain ⟨r, hr, hmem6⟩ := mem_of_seqList hmem
    simp only [List.mem_map] at hr
    obtain ⟨p, hp, rfl⟩ := hr
    simp [osCallStep] at hmem6

/-- The loop removes no directory, whatever the oracle says. -/
theorem rmtree_not_in_pyLoop (env : Env) (pkg ver : String) (pyvers : List String)
    (q : String) : Event.rmtree q ∉ (pyLoop env pkg ver pyvers).1 := by
  intro hmem
  unfold pyLoop at hmem
  obtain ⟨r, hr, hmem2⟩ := mem_of_seqList hmem
  simp only [List.mem_map] at hr
  obtain ⟨p, hp, rfl⟩ := hr
  exact rmtree_not_in_buildOne env pkg ver p q hmem2

/-- The plan report records no file revision. -/
theorem revisionsOf_planTrace (env : Env) (repo pkg ver : String) (l : List String) :
    revisionsOf (planTrace env repo pkg ver l) = [] := by
  simp [planTrace, revisionsOf]

/-- The workspace reset records no file revision. -/
theorem revisionsOf_workspaceReset (env : Env) :
    revisionsOf (workspaceReset env) = [] := by
  unfold workspaceReset
  cases env.workingDirExists <;> simp [revisionsOf]

/-- The version-stamping step records exactly the three file revisions of
release.py lines 134-150. -/
theorem revisionsOf_stampTrace (pkg ver : String) :
    revisionsOf (stampTrace pkg ver) =
      [(pathJoin "conda.recipe" "meta.yaml", "version: .*", "version: " ++ ver),
       ("setup.py", "version = .*", "version = " ++ dq ver),
       (pathJoin pkg "__init__.py", "__version__ = .*", "__version__ = " ++ dq ver)] := by
  simp [stampTrace, revisionsOf]

/-- A leading print records no file revision. -/
theorem revisionsOf_cons_print (s : String) (t : List Event) :
    revisionsOf (Event.print s :: t) = revisionsOf t := rfl

/-- A leading command invocation records no file revision. -/
theorem revisionsOf_cons_osCall (c : String) (t : List Event) :
    revisionsOf (Event.osCall c :: t) = revisionsOf t := rfl

/-- A leading directory change records no file revision. -/
theorem revisionsOf_cons_chdir (p : String) (t : List Event) :
    revisionsOf (Event.chdir p :: t) = revisionsOf t := rfl

/-- A leading directory removal records no file revision. -/
theorem revisionsOf_cons_rmtree (p : String) (t : List Event) :
    revisionsOf (Event.rmtree p :: t) = revisionsOf t := rfl

/-- A leading directory creation records no file revision. -/
theorem revisionsOf_cons_mkdir (p : String) (t : List Event) :
    revisionsOf (Event.mkdir p :: t) = revisionsOf t := rfl

/-- The empty trace records no file revision. -/
theorem revisionsOf_nil : revisionsOf [] = [] := rfl

/-- A machine where the token file exists, the working directory does not
yet exist, and every external command succeeds. -/
def envAllOk : Env :=
  { tokenFileExists := true, workingDirExists := false, localPlatform := "linux-64",
    osCallOk := fun _ => true, homeDir := "/home/pb", startTime := "T0", finishTime := "T1" }

/-- The machine `envAllOk` but with the token file absent. -/
def envNoToken : Env := { envAllOk with tokenFileExists := false }

/-- The machine `envAllOk` but where every external command fails. -/
def envAllFail : Env := { envAllOk with osCallOk := fun _ => false }

/-- Claim C1 counterexample: the version string "1.2.3\n" is not three
dot-separated non-negative integers and nothing else, yet `release` raises
no error for it and reaches filesystem side effects (it creates the working
directory), because Python's `$` anchor also matches just before a single
trailing newline. -/
theorem C1_counterexample :
    specVersionPattern "1.2.3\n" = false ∧
    (release envAllOk (PyVal.str "Tax-Calculator") (PyVal.str "taxcalc")
        (PyVal.str "1.2.3\n") (PyVal.bool true) (PyVal.bool false)).2 = none ∧
    Event.mkdir (WORKING_DIR envAllOk) ∈
      (release envAllOk (PyVal.str "Tax-Calculator") (PyVal.str "taxcalc")
        (PyVal.str "1.2.3\n") (PyVal.bool true) (PyVal.bool false)).1 :=
  ⟨by decide, by decide, by decide⟩

/-- Claim C1 as amended: for every version argument that is a string but is
rejected by the code's pattern check (three dot-separated non-negative
integers, optionally followed by a single trailing newline), `release`
raises a precondition error with an empty event trace, so before any
filesystem or network side effect, whatever the other arguments are. -/
theorem C1_version_precondition (env : Env) (rn pn a d : PyVal) (ver : String)
    (h : reMatchXYZ ver = false) :
    (release env rn pn (PyVal.str ver) a d).1 = [] ∧
    (release env rn pn (PyVal.str ver) a d).2.isSome = true := by
  cases rn <;> cases pn <;> cases a <;> cases d <;> simp [release, h]

/-- Witness for `C1_version_precondition` at the malformed version "1.2". -/
theorem C1_version_precondition_witness :
    reMatchXYZ "1.2" = false ∧
    (release envAllOk (PyVal.str "R") (PyVal.str "p") (PyVal.str "1.2")
        (PyVal.bool true) (PyVal.bool false)).1 = [] ∧
    (release envAllOk (PyVal.str "R") (PyVal.str "p") (PyVal.str "1.2")
        (PyVal.bool true) (PyVal.bool false)).2.isSome = true :=
  ⟨by decide,
   C1_version_precondition envAllOk (PyVal.str "R") (PyVal.str "p")
     (PyVal.bool true) (PyVal.bool false) "1.2" (by decide)⟩

/-- Claim C2: with the secondary-interpreter flag true the computed
interpreter-version set is the base set plus exactly the one fixed extra
version "3.7", without duplicates; with the flag false it is the base set
exactly. -/
theorem C2_python_version_set :
    pythonVersions true = BASE_PYTHON_VERSIONS ++ ["3.7"] ∧
    "3.7" ∉ BASE_PYTHON_VERSIONS ∧
    (pythonVersions true).Nodup ∧
    pythonVersions false = BASE_PYTHON_VERSIONS :=
  ⟨rfl, by decide, by decide, rfl⟩

/-- Claim C3: the derived artifact filename is
`<package>-<version>-py<compacted interpreter>_0.tar.bz2`, the compacted
token dropping the dot of the interpreter version; in particular for
taxcalc 0.22.2 on Python 3.7 it is `taxcalc-0.22.2-py37_0.tar.bz2`. -/
theorem C3_artifact_filename :
    (∀ pkg ver : String,
      pkgfileName pkg ver "3.7" = pkg ++ "-" ++ ver ++ "-py37_0.tar.bz2" ∧
      pkgfileName pkg ver "3.6" = pkg ++ "-" ++ ver ++ "-py36_0.tar.bz2") ∧
    pkgfileName "taxcalc" "0.22.2" "3.7" = "taxcalc-0.22.2-py37_0.tar.bz2" := by
  refine ⟨fun pkg ver => ⟨?_, ?_⟩, by decide⟩
  · have h7 : ("-py" ++ (pystr "3.7" ++ "_0.tar.bz2")) = "-py37_0.tar.bz2" := rfl
    simp only [pkgfileName, String.append_assoc]
    rw [h7]
  · have h6 : ("-py" ++ (pystr "3.6" ++ "_0.tar.bz2")) = "-py36_0.tar.bz2" := rfl
    simp only [pkgfileName, String.append_assoc]
    rw [h6]

/-- Claim C8: a non-string repository name, package name or version, or a
non-boolean flag, makes `release` fail with an empty event trace; and with
valid parameters but an absent token file it fails with the token-file
message, again with no side effect. -/
theorem C8_parameter_and_token_preconditions :
    (∀ (env : Env) (rn pn v a d : PyVal),
      (rn.isStr && pn.isStr && v.isStr && a.isBool && d.isBool) = false →
      (release env rn pn v a d).1 = [] ∧ (release env rn pn v a d).2.isSome = true) ∧
    (∀ (env : Env) (r p v : String) (a d : Bool),
      env.tokenFileExists = false → reMatchXYZ v = true →
      release env (PyVal.str r) (PyVal.str p) (PyVal.str v) (PyVal.bool a) (PyVal.bool d) =
        ([], some ("Anaconda token file " ++ ANACONDA_TOKEN_FILE env ++ " does not exist"))) := by
  constructor
  · intro env rn pn v a d hbad
    cases rn <;> cases pn <;> cases v <;> cases a <;> cases d <;>
      simp_all [release, PyVal.isStr, PyVal.isBool]
  · intro env r p v a d ht hm
    simp [release, hm, ht]

/-- Witness for `C8_parameter_and_token_preconditions`: with every parameter
valid but the token file absent, the token-file error is raised with no
side effect. -/
theorem C8_witness :
    envNoToken.tokenFileExists = false ∧
    release envNoToken (PyVal.str "R") (PyVal.str "p") (PyVal.str "1.2.3")
        (PyVal.bool true) (PyVal.bool false) =
      ([], some ("Anaconda token file " ++ ANACONDA_TOKEN_FILE envNoToken ++
                 " does not exist")) :=
  ⟨rfl,
   C8_parameter_and_token_preconditions.2 envNoToken "R" "p" "1.2.3" true false
     rfl (by decide)⟩

/-- Claim C9: the seven precondition checks run in the fixed source order
(repository-name type, package-name type, version type, also37 type, dryrun
type, version pattern, token file), so with several violations the error is
the first one in that order; a non-string version always yields the type
error, never the pattern error. -/
theorem C9_check_order :
    (∀ (env : Env) (rn pn v a d : PyVal), rn.isStr = false →
      release env rn pn v a d = ([], some "repo_name is not a string object")) ∧
    (∀ (env : Env) (rn pn v a d : PyVal), rn.isStr = true → pn.isStr = false →
      release env rn pn v a d = ([], some "pkg_name is not a string object")) ∧
    (∀ (env : Env) (rn pn v a d : PyVal), rn.isStr = true → pn.isStr = true →
      v.isStr = false →
      release env rn pn v a d = ([], some "version is not a string object")) ∧
    (∀ (env : Env) (rn pn v a d : PyVal), rn.isStr = true → pn.isStr = true →
      v.isStr = true → a.isBool = false →
      release env rn pn v a d = ([], some "also37 is not a boolean object")) ∧
    (∀ (env : Env) (rn pn v a d : PyVal), rn.isStr = true → pn.isStr = true →
      v.isStr = true → a.isBool = true → d.isBool = false →
      release env rn pn v a d = ([], some "dryrun is not a boolean object")) ∧
    (∀ (env : Env) (r p v : String) (a d : Bool), reMatchXYZ v = false →
      release env (PyVal.str r) (PyVal.str p) (PyVal.str v) (PyVal.bool a) (PyVal.bool d) =
        ([], some ("version=" ++ v ++ " does not have X.Y.Z semantic-versioning pattern"))) ∧
    (∀ (env : Env) (r p v : String) (a d : Bool), reMatchXYZ v = true →
      env.tokenFileExists = false →
      release env (PyVal.str r) (PyVal.str p) (PyVal.str v) (PyVal.bool a) (PyVal.bool d) =
        ([], some ("Anaconda token file " ++ ANACONDA_TOKEN_FILE env ++ " does not exist"))) := by
  refine ⟨?_, ?_, ?_, ?_, ?_, ?_, ?_⟩
  · intro env rn pn v a d h1
    cases rn <;> simp_all [release, PyVal.isStr]
  · intro env rn pn v a d h1 h2
    cases rn <;> cases pn <;> simp_all [release, PyVal.isStr]
  · intro env rn pn v a d h1 h2 h3
    cases rn <;> cases pn <;> cases v <;> simp_all [release, PyVal.isStr]
  · intro env rn pn v a d h1 h2 h3 h4
    cases rn <;> cases pn <;> cases v <;> cases a <;>
      simp_all [release, PyVal.isStr, PyVal.isBool]
  · intro env rn pn v a d h1 h2 h3 h4 h5
    cases rn <;> cases pn <;> cases v <;> cases a <;> cases d <;>
      simp_all [release, PyVal.isStr, PyVal.isBool]
  · intro env r p v a d hm
    simp [release, hm]
  · intro env r p v a d hm ht
    simp [release, hm, ht]

/-- Witness for `C9_check_order`: with a non-string version and a non-boolean
also37 violated at once, the error is the version type error. -/
theorem C9_witness :
    release envAllOk (PyVal.str "R") (PyVal.str "p") (PyVal.int 7)
        (PyVal.int 0) PyVal.pynone =
      ([], some "version is not a string object") :=
  C9_check_order.2.2.1 envAllOk (PyVal.str "R") (PyVal.str "p") (PyVal.int 7)
    (PyVal.int 0) PyVal.pynone rfl rfl rfl

/-- A sequenced step that succeeded ends with whatever its tail ends with. -/
theorem ends_of_seqR {a b : RStep} {t : List Event} (h2 : (seqR a b).2 = none)
    (hb : b.2 = none → ∃ s, b.1 = s ++ t) : ∃ s, (seqR a b).1 = s ++ t := by
  obtain ⟨ha, hbn⟩ := seqR_snd_none.mp h2
  obtain ⟨s, hs⟩ := hb hbn
  exact ⟨a.1 ++ s, by rw [seqR_fst_of_none ha, hs, List.append_assoc]⟩

/-- A run that raised no error went all the way: its trace ends with the
finishing banner printed by the very last statement of `release`. -/
theorem releaseRun_none_ends (env : Env) (repo pkg ver : String) (pyvers : List String)
    (he : (releaseRun env repo pkg ver pyvers).2 = none) :
    ∃ t, (releaseRun env repo pkg ver pyvers).1 =
      t ++ [Event.print (": Package-Builder is finishing at " ++ env.finishTime)] := by
  unfold releaseRun at he ⊢
  apply ends_of_seqR he
  intro h1
  apply ends_of_seqR h1
  intro h2
  apply ends_of_seqR h2
  intro h3
  apply ends_of_seqR h3
  intro h4
  apply ends_of_seqR h4
  intro h5
  apply ends_of_seqR h5
  intro h6
  apply ends_of_seqR h6
  intro h7
  exact ⟨[Event.chdir env.homeDir, Event.rmtree (WORKING_DIR env)], rfl⟩

/-- Claim C4: with valid parameters and the token file present, a dry run
prints exactly the plan followed by the quitting banner, raises no error,
and its whole trace is console output (no filesystem, network, or command
event); and a non-dry run that raises no error ends with the finishing
banner, so the dry-run return is the only non-error early termination. -/
theorem C4_dryrun_plan_only :
    (∀ (env : Env) (repo pkg ver : String) (a37 : Bool),
      reMatchXYZ ver = true → env.tokenFileExists = true →
      release env (PyVal.str repo) (PyVal.str pkg) (PyVal.str ver)
          (PyVal.bool a37) (PyVal.bool true) =
        (planTrace env repo pkg ver (pythonVersions a37) ++
          [Event.print ": Package-Builder is quitting"], none) ∧
      (release env (PyVal.str repo) (PyVal.str pkg) (PyVal.str ver)
          (PyVal.bool a37) (PyVal.bool true)).1.all isPrint = true) ∧
    (∀ (env : Env) (repo pkg ver : String) (a37 : Bool),
      reMatchXYZ ver = true → env.tokenFileExists = true →
      (release env (PyVal.str repo) (PyVal.str pkg) (PyVal.str ver)
          (PyVal.bool a37) (PyVal.bool false)).2 = none →
      ∃ t, (release env (PyVal.str repo) (PyVal.str pkg) (PyVal.str ver)
          (PyVal.bool a37) (PyVal.bool false)).1 =
        t ++ [Event.print (": Package-Builder is finishing at " ++ env.finishTime)]) := by
  constructor
  · intro env repo pkg ver a37 hm ht
    constructor
    · simp [release, hm, ht, releaseChecked]
    · simp [release, hm, ht, releaseChecked, planTrace, isPrint]
  · intro env repo pkg ver a37 hm ht he
    have hrel : release env (PyVal.str repo) (PyVal.str pkg) (PyVal.str ver)
        (PyVal.bool a37) (PyVal.bool false) =
        releaseRun env repo pkg ver (pythonVersions a37) := by
      simp [release, hm, ht, releaseChecked]
    rw [hrel] at he ⊢
    exact releaseRun_none_ends env repo pkg ver (pythonVersions a37) he

/-- Witness for `C4_dryrun_plan_only`: a concrete dry run is plan plus
quitting banner only. -/
theorem C4_witness :
    reMatchXYZ "1.2.3" = true ∧
    release envAllOk (PyVal.str "R") (PyVal.str "p") (PyVal.str "1.2.3")
        (PyVal.bool true) (PyVal.bool true) =
      (planTrace envAllOk "R" "p" "1.2.3" (pythonVersions true) ++
        [Event.print ": Package-Builder is quitting"], none) :=
  ⟨by decide, (C4_dryrun_plan_only.1 envAllOk "R" "p" "1.2.3" true (by decide) rfl).1⟩

/-- When the clone command fails, the run raises, no file revision is
recorded, the only command ever invoked is the clone itself (so no build,
convert, upload or purge), the trace stops at the failed clone, and the
freshly created working directory is not removed (cleanup is not
reached). -/
theorem release_cloneFail_stops_run (env : Env) (repo pkg ver : String) (a37 : Bool)
    (hm : reMatchXYZ ver = true) (ht : env.tokenFileExists = true)
    (hc : env.osCallOk (cloneCmd ver repo) = false) :
    ((release env (PyVal.str repo) (PyVal.str pkg) (PyVal.str ver)
        (PyVal.bool a37) (PyVal.bool false)).2).isSome = true ∧
    revisionsOf (release env (PyVal.str repo) (PyVal.str pkg) (PyVal.str ver)
        (PyVal.bool a37) (PyVal.bool false)).1 = [] ∧
    (∀ c, Event.osCall c ∈ (release env (PyVal.str repo) (PyVal.str pkg) (PyVal.str ver)
        (PyVal.bool a37) (PyVal.bool false)).1 → c = cloneCmd ver repo) ∧
    (∃ t, (release env (PyVal.str repo) (PyVal.str pkg) (PyVal.str ver)
        (PyVal.bool a37) (PyVal.bool false)).1 = t ++ [Event.osCall (cloneCmd ver repo)]) ∧
    Event.osCall purgeCmd ∉ (release env (PyVal.str repo) (PyVal.str pkg) (PyVal.str ver)
        (PyVal.bool a37) (PyVal.bool false)).1 ∧
    (env.workingDirExists = false →
      Event.rmtree (WORKING_DIR env) ∉ (release env (PyVal.str repo) (PyVal.str pkg)
        (PyVal.str ver) (PyVal.bool a37) (PyVal.bool false)).1) := by
  rw [release_cloneFail repo pkg ver a37 hm ht hc]
  refine ⟨rfl, ?_, ?_, ?_, ?_, ?_⟩
  · simp [revisionsOf_append, revisionsOf_planTrace, revisionsOf_workspaceReset,
      revisionsOf_cons_print, revisionsOf_cons_osCall, revisionsOf_nil]
  · intro c hcmem
    cases hwde : env.workingDirExists <;>
      simp [planTrace, workspaceReset, hwde] at hcmem <;> exact hcmem
  · exact ⟨planTrace env repo pkg ver (pythonVersions a37) ++
      [Event.print (": Package-Builder is starting at " ++ env.startTime)] ++
      workspaceReset env ++
      [Event.print (": Package-Builder is cloning repository code for " ++ ver)],
      by simp [List.append_assoc]⟩
  · have hne := cloneCmd_ne_purgeCmd ver repo
    cases hwde : env.workingDirExists <;>
      simp [planTrace, workspaceReset, hwde, Ne.symm hne, hne]
  · intro hw
    simp [planTrace, workspaceReset, hw]

/-- The machine `envAllOk` but where only the clone command for version
1.2.3 of repository R succeeds, so the first build command of the loop
fails. -/
def envBuildFail : Env :=
  { envAllOk with osCallOk := fun c => c == cloneCmd "1.2.3" "R" }

/-- Claim C5: if the clone step fails, no version-stamping, build, convert
or upload step executes and cleanup is not reached, leaving the working
directory intact; and cleanup (the cache purge and the working-directory
removal) runs only after the entire build/convert/upload loop completes
successfully: after a successful clone, a failing loop propagates its error,
the purge command is never invoked and the only directory removal in the
whole trace is the initial workspace reset, while a successfully completed
loop is followed by the purge invocation. -/
theorem C5_failure_propagation_and_cleanup :
    (∀ (env : Env) (repo pkg ver : String) (a37 : Bool),
      reMatchXYZ ver = true → env.tokenFileExists = true →
      env.osCallOk (cloneCmd ver repo) = false →
      ((release env (PyVal.str repo) (PyVal.str pkg) (PyVal.str ver)
          (PyVal.bool a37) (PyVal.bool false)).2).isSome = true ∧
      revisionsOf (release env (PyVal.str repo) (PyVal.str pkg) (PyVal.str ver)
          (PyVal.bool a37) (PyVal.bool false)).1 = [] ∧
      (∀ c, Event.osCall c ∈ (release env (PyVal.str repo) (PyVal.str pkg) (PyVal.str ver)
          (PyVal.bool a37) (PyVal.bool false)).1 → c = cloneCmd ver repo) ∧
      (∃ t, (release env (PyVal.str repo) (PyVal.str pkg) (PyVal.str ver)
          (PyVal.bool a37) (PyVal.bool false)).1 = t ++ [Event.osCall (cloneCmd ver repo)]) ∧
      Event.osCall purgeCmd ∉ (release env (PyVal.str repo) (PyVal.str pkg) (PyVal.str ver)
          (PyVal.bool a37) (PyVal.bool false)).1 ∧
      (env.workingDirExists = false →
        Event.rmtree (WORKING_DIR env) ∉ (release env (PyVal.str repo) (PyVal.str pkg)
          (PyVal.str ver) (PyVal.bool a37) (PyVal.bool false)).1)) ∧
    (∀ (env : Env) (repo pkg ver : String) (a37 : Bool),
      reMatchXYZ ver = true → env.tokenFileExists = true →
      env.osCallOk (cloneCmd ver repo) = true →
      ((pyLoop env pkg ver (pythonVersions a37)).2).isSome = true →
      ((release env (PyVal.str repo) (PyVal.str pkg) (PyVal.str ver)
          (PyVal.bool a37) (PyVal.bool false)).2).isSome = true ∧
      Event.osCall purgeCmd ∉ (release env (PyVal.str repo) (PyVal.str pkg) (PyVal.str ver)
          (PyVal.bool a37) (PyVal.bool false)).1 ∧
      (release env (PyVal.str repo) (PyVal.str pkg) (PyVal.str ver)
          (PyVal.bool a37) (PyVal.bool false)).1.count (Event.rmtree (WORKING_DIR env)) =
        (if env.workingDirExists then 1 else 0)) ∧
    (∀ (env : Env) (repo pkg ver : String) (a37 : Bool),
      reMatchXYZ ver = true → env.tokenFileExists = true →
      env.osCallOk (cloneCmd ver repo) = true →
      (pyLoop env pkg ver (pythonVersions a37)).2 = none →
      Event.osCall purgeCmd ∈ (release env (PyVal.str repo) (PyVal.str pkg) (PyVal.str ver)
          (PyVal.bool a37) (PyVal.bool false)).1) := by
  refine ⟨release_cloneFail_stops_run, ?_, ?_⟩
  · intro env repo pkg ver a37 hm ht hc hloop
    have hrel : release env (PyVal.str repo) (PyVal.str pkg) (PyVal.str ver)
        (PyVal.bool a37) (PyVal.bool false) =
        releaseRun env repo pkg ver (pythonVersions a37) := by
      simp [release, hm, ht, releaseChecked]
    rw [hrel]
    obtain ⟨m, hm2⟩ := Option.isSome_iff_exists.mp hloop
    unfold releaseRun
    rw [seqR_of_fail hm2]
    rw [show osCallStep env (cloneCmd ver repo) =
          ([Event.osCall (cloneCmd ver repo)], none) by simp [osCallStep, hc]]
    rw [seqR_ok, seqR_ok, seqR_ok, seqR_ok]
    refine ⟨by simp [hm2], ?_, ?_⟩
    · intro hpmem
      have hclne := cloneCmd_ne_purgeCmd ver repo
      have hnp := purge_not_in_pyLoop env pkg ver (pythonVersions a37)
      cases hwde : env.workingDirExists <;>
        simp [planTrace, workspaceReset, stampTrace, hwde, hclne, Ne.symm hclne,
          hnp] at hpmem
    · have h0 : ((pyLoop env pkg ver (pythonVersions a37)).1).count
          (Event.rmtree (WORKING_DIR env)) = 0 :=
        List.count_eq_zero.mpr
          (rmtree_not_in_pyLoop env pkg ver (pythonVersions a37) (WORKING_DIR env))
      cases hwde : env.workingDirExists <;>
        simp [planTrace, workspaceReset, stampTrace, hwde, List.count_append,
          List.count_cons, h0]
  · intro env repo pkg ver a37 hm ht hc hloopok
    have hrel : release env (PyVal.str repo) (PyVal.str pkg) (PyVal.str ver)
        (PyVal.bool a37) (PyVal.bool false) =
        releaseRun env repo pkg ver (pythonVersions a37) := by
      simp [release, hm, ht, releaseChecked]
    rw [hrel]
    unfold releaseRun
    apply mem_seqR_of_right rfl
    apply mem_seqR_of_right (show (osCallStep env (cloneCmd ver repo)).2 = none by
      simp [osCallStep, hc])
    apply mem_seqR_of_right rfl
    apply mem_seqR_of_right rfl
    apply mem_seqR_of_right hloopok
    apply mem_seqR_of_right rfl
    apply mem_seqR_of_left
    simp [osCallStep]

/-- Witness for `C5_failure_propagation_and_cleanup`: on a machine where
every command fails the clone failure leaves no file revision, and on a
machine where only the clone succeeds the mid-loop build failure leaves the
initial workspace-reset removal as the only directory removal (the cleanup
removal is never reached). -/
theorem C5_witness :
    revisionsOf (release envAllFail (PyVal.str "R") (PyVal.str "p") (PyVal.str "1.2.3")
        (PyVal.bool true) (PyVal.bool false)).1 = [] ∧
    (release envBuildFail (PyVal.str "R") (PyVal.str "p") (PyVal.str "1.2.3")
        (PyVal.bool true) (PyVal.bool false)).1.count
      (Event.rmtree (WORKING_DIR envBuildFail)) =
      (if envBuildFail.workingDirExists then 1 else 0) :=
  ⟨(C5_failure_propagation_and_cleanup.1 envAllFail "R" "p" "1.2.3" true
      (by decide) rfl rfl).2.1,
   (C5_failure_propagation_and_cleanup.2.1 envBuildFail "R" "p" "1.2.3" true
      (by decide) rfl (by decide) (by decide)).2.2⟩

/-- Claim C6: once the clone succeeded, a non-dry run applies in-place
pattern substitution to exactly three files and no others, with exactly the
patterns and replacements of release.py lines 134-150, whatever the later
build, convert, upload or purge commands do. -/
theorem C6_stamps_exactly_three_files (env : Env) (repo pkg ver : String) (a37 : Bool)
    (hm : reMatchXYZ ver = true) (ht : env.tokenFileExists = true)
    (hc : env.osCallOk (cloneCmd ver repo) = true) :
    revisionsOf (release env (PyVal.str repo) (PyVal.str pkg) (PyVal.str ver)
        (PyVal.bool a37) (PyVal.bool false)).1 =
      [(pathJoin "conda.recipe" "meta.yaml", "version: .*", "version: " ++ ver),
       ("setup.py", "version = .*", "version = " ++ dq ver),
       (pathJoin pkg "__init__.py", "__version__ = .*", "__version__ = " ++ dq ver)] := by
  have hrel : release env (PyVal.str repo) (PyVal.str pkg) (PyVal.str ver)
      (PyVal.bool a37) (PyVal.bool false) =
      releaseRun env repo pkg ver (pythonVersions a37) := by
    simp [release, hm, ht, releaseChecked]
  rw [hrel]
  unfold releaseRun
  rw [seqR_fst_of_none (show ((planTrace env repo pkg ver (pythonVersions a37) ++
        [Event.print (": Package-Builder is starting at " ++ env.startTime)] ++
        workspaceReset env ++
        [Event.print (": Package-Builder is cloning repository code for " ++ ver)],
        (none : Option String)) : RStep).2 = none from rfl)]
  rw [seqR_fst_of_none (show (osCallStep env (cloneCmd ver repo)).2 = none by
        simp [osCallStep, hc])]
  rw [seqR_fst_of_none (show (([Event.chdir repo], (none : Option String)) : RStep).2 = none
        from rfl)]
  rw [seqR_fst_of_none (show ((stampTrace pkg ver, (none : Option String)) : RStep).2 = none
        from rfl)]
  have hrest : revisionsOf (seqR (pyLoop env pkg ver (pythonVersions a37))
      (seqR ([Event.print ": Package-Builder is cleaning-up"], none)
      (seqR (osCallStep env purgeCmd)
      ([Event.chdir env.homeDir, Event.rmtree (WORKING_DIR env),
        Event.print (": Package-Builder is finishing at " ++ env.finishTime)], none)))).1 = [] := by
    apply revisionsOf_seqR (revisionsOf_pyLoop env pkg ver (pythonVersions a37))
    apply revisionsOf_seqR (by rfl)
    apply revisionsOf_seqR (revisionsOf_osCallStep env purgeCmd)
    rfl
  simp [revisionsOf_append, revisionsOf_planTrace, revisionsOf_workspaceReset,
    revisionsOf_stampTrace, revisionsOf_cons_print, revisionsOf_cons_osCall,
    revisionsOf_cons_chdir, revisionsOf_nil, revisionsOf_osCallStep, hrest]

/-- Witness for `C6_stamps_exactly_three_files` on a concrete machine. -/
theorem C6_witness :
    revisionsOf (release envAllOk (PyVal.str "R") (PyVal.str "taxcalc")
        (PyVal.str "1.2.3") (PyVal.bool true) (PyVal.bool false)).1 =
      [(pathJoin "conda.recipe" "meta.yaml", "version: .*", "version: " ++ "1.2.3"),
       ("setup.py", "version = .*", "version = " ++ dq "1.2.3"),
       (pathJoin "taxcalc" "__init__.py", "__version__ = .*",
        "__version__ = " ++ dq "1.2.3")] :=
  C6_stamps_exactly_three_files envAllOk "R" "taxcalc" "1.2.3" true (by decide) rfl rfl

/-- Claim C10: the two flags of `release` default to also37 = True and
dryrun = False, so a call that supplies only repository, package and
version is exactly the call with those flag values: it performs a real
(non-dry-run) release and also targets the secondary interpreter (it
invokes the Python 3.7 build command). -/
theorem C10_defaults :
    (∀ (env : Env) (rn pn v : PyVal),
      release env rn pn v = release env rn pn v (PyVal.bool true) (PyVal.bool false)) ∧
    (∀ (env : Env) (r p v : String),
      reMatchXYZ v = true → env.tokenFileExists = true →
      (∀ c, env.osCallOk c = true) →
      Event.mkdir (WORKING_DIR env) ∈
        (release env (PyVal.str r) (PyVal.str p) (PyVal.str v)).1 ∧
      Event.osCall (buildCmd "3.7") ∈
        (release env (PyVal.str r) (PyVal.str p) (PyVal.str v)).1) := by
  refine ⟨fun env rn pn v => rfl, ?_⟩
  intro env r p v hm ht h
  have hdef : release env (PyVal.str r) (PyVal.str p) (PyVal.str v) =
      release env (PyVal.str r) (PyVal.str p) (PyVal.str v)
        (PyVal.bool true) (PyVal.bool false) := rfl
  rw [hdef, release_ok r p v true hm ht h]
  constructor
  · simp [successTrace, workspaceReset]
  · simp [successTrace, pythonVersions, BASE_PYTHON_VERSIONS, buildOneTrace]

/-- Witness for `C10_defaults`: a three-argument call on a concrete machine
invokes the Python 3.7 build command. -/
theorem C10_witness :
    Event.osCall (buildCmd "3.7") ∈
      (release envAllOk (PyVal.str "R") (PyVal.str "p") (PyVal.str "1.2.3")).1 :=
  (C10_defaults.2 envAllOk "R" "p" "1.2.3" (by decide) rfl (fun _ => rfl)).2

/-- A mapped command list contains no occurrence of a command none of the
sources produce. -/
theorem count_map_osCall_eq_zero {g : String → String} {l : List String} {c : String}
    (h : ∀ x ∈ l, g x ≠ c) :
    (l.map (fun x => Event.osCall (g x))).count (Event.osCall c) = 0 := by
  rw [List.count_eq_zero]
  intro hmem
  simp only [List.mem_map] at hmem
  obtain ⟨x, hx, he⟩ := hmem
  exact h x hx (by injection he)

/-- A mapped command list over a duplicate-free source list contains exactly
one occurrence of the command of a listed source, provided no other listed
source produces the same command. -/
theorem count_map_osCall_eq_one {g : String → String} {l : List String} {a : String}
    (ha : a ∈ l) (hnd : l.Nodup) (hinj : ∀ x ∈ l, g x = g a → x = a) :
    (l.map (fun x => Event.osCall (g x))).count (Event.osCall (g a)) = 1 := by
  induction l with
  | nil => cases ha
  | cons b t ih =>
    rcases List.mem_cons.mp ha with hab | hat
    · subst hab
      have h0 : (t.map (fun x => Event.osCall (g x))).count (Event.osCall (g a)) = 0 := by
        apply count_map_osCall_eq_zero
        intro x hx hgx
        have hxa := hinj x (List.mem_cons_of_mem _ hx) hgx
        subst hxa
        exact absurd hx (List.nodup_cons.mp hnd).1
      simp [List.count_cons, h0]
    · have hne : g b ≠ g a := by
        intro he
        have hba := hinj b (List.mem_cons_self _ _) he
        subst hba
        exact absurd hat (List.nodup_cons.mp hnd).1
      have hrec := ih hat (List.nodup_cons.mp hnd).2
        (fun x hx hgx => hinj x (List.mem_cons_of_mem _ hx) hgx)
      simp [List.count_cons, hrec, hne, Ne.symm hne]

/-- The configured platform list has no duplicates. -/
theorem OS_PLATFORMS_nodup : OS_PLATFORMS.Nodup := by decide

/-- Claim C7: in one loop iteration with every command succeeding, the
converter is never invoked for the local platform, is invoked exactly once
for each other configured platform (on the locally built artifact), and the
uploader (carrying the token file and the force flag inside `uploadCmd`) is
invoked exactly once for every configured platform including the local one,
on that platform's copy of the artifact. -/
theorem C7_convert_upload_per_platform (env : Env) (pkg ver pyver : String)
    (h : ∀ c, env.osCallOk c = true) :
    (Event.osCall (convertCmd env.localPlatform (localPkgPath env pkg ver pyver)) ∉
      (buildOne env pkg ver pyver).1) ∧
    (∀ p ∈ OS_PLATFORMS, p ≠ env.localPlatform →
      (buildOne env pkg ver pyver).1.count
        (Event.osCall (convertCmd p (localPkgPath env pkg ver pyver))) = 1) ∧
    (∀ p ∈ OS_PLATFORMS,
      (buildOne env pkg ver pyver).1.count
        (Event.osCall (uploadCmd env (platPkgPath p pkg ver pyver))) = 1) := by
  rw [buildOne_ok pkg ver pyver h]
  refine ⟨?_, ?_, ?_⟩
  · rw [← List.count_eq_zero]
    simp only [buildOneTrace, List.count_append]
    rw [count_map_osCall_eq_zero (fun x hx hxe => by
      have hxl : x ≠ env.localPlatform := by
        have := (List.mem_filter.mp hx).2
        simpa using this
      exact hxl (convertCmd_platform_inj hxe))]
    rw [count_map_osCall_eq_zero (fun x _ hxe =>
      uploadCmd_ne_convertCmd env (platPkgPath x pkg ver pyver)
        env.localPlatform (localPkgPath env pkg ver pyver) hxe)]
    have hb := buildCmd_ne_convertCmd pyver env.localPlatform (localPkgPath env pkg ver pyver)
    simp [List.count_cons, hb, Ne.symm hb]
  · intro p hp hpne
    simp only [buildOneTrace, List.count_append]
    rw [count_map_osCall_eq_one
      (List.mem_filter.mpr ⟨hp, by simpa using hpne⟩)
      (OS_PLATFORMS_nodup.filter _)
      (fun x _ hxe => convertCmd_platform_inj hxe)]
    rw [count_map_osCall_eq_zero (fun x _ hxe =>
      uploadCmd_ne_convertCmd env (platPkgPath x pkg ver pyver)
        p (localPkgPath env pkg ver pyver) hxe)]
    have hb := buildCmd_ne_convertCmd pyver p (localPkgPath env pkg ver pyver)
    simp [List.count_cons, hb, Ne.symm hb]
  · intro p hp
    simp only [buildOneTrace, List.count_append]
    rw [count_map_osCall_eq_one (g := fun x => uploadCmd env (platPkgPath x pkg ver pyver))
      hp OS_PLATFORMS_nodup
      (fun x _ hxe => platPkgPath_platform_inj (uploadCmd_path_inj hxe))]
    rw [count_map_osCall_eq_zero (fun x hx hxe => by
      exact uploadCmd_ne_convertCmd env (platPkgPath p pkg ver pyver)
        x (localPkgPath env pkg ver pyver) hxe.symm)]
    have hb := uploadCmd_ne_buildCmd env (platPkgPath p pkg ver pyver) pyver
    simp [List.count_cons, hb, Ne.symm hb]

/-- Witness for `C7_convert_upload_per_platform`: on a concrete linux-64
machine, the osx-64 convert command is invoked exactly once in the Python
3.7 iteration. -/
theorem C7_witness :
    (buildOne envAllOk "taxcalc" "0.22.2" "3.7").1.count
        (Event.osCall (convertCmd "osx-64" (localPkgPath envAllOk "taxcalc" "0.22.2" "3.7"))) = 1 :=
  (C7_convert_upload_per_platform envAllOk "taxcalc" "0.22.2" "3.7" (fun _ => rfl)).2.1
    "osx-64" (by decide) (by decide)

end Pkgbld
